import Mathlib

/-!
Shallow embedding of `server.js` (Plataforma de Histórias): a single-file
Express + better-sqlite3 backend with auth (bcrypt + JWT), a story CRUD,
favorites, a simulated checkout, and a Socket.IO chat hub.

The database tables become lists of rows; each HTTP handler becomes a pure
function from the current store (plus the request data, the freshly drawn
`uid()` and the current time `now()` as explicit parameters) to a response
and the next store.  JavaScript string truthiness (`undefined`, `null` and
`""` are falsy) is modelled on `Option String`; SQL `NULL` is `none`.
-/

namespace Historias

/-- Models the JavaScript idiom `v || d` on possibly-missing strings:
`undefined`/`null` (here `none`) and the empty string are falsy. -/
def jsOr (v : Option String) (d : String) : String :=
  match v with
  | none => d
  | some s => if s.isEmpty then d else s

/-- Models `v || null` on possibly-missing strings (e.g. `name||null`,
`username||null` in the register handler): falsy values are stored as SQL
`NULL`. -/
def jsOrNull (v : Option String) : Option String :=
  match v with
  | none => none
  | some s => if s.isEmpty then none else some s

/-- Truthiness of a possibly-missing string, as tested by `if(!x)`. -/
def strTruthy (v : Option String) : Bool :=
  match v with
  | none => false
  | some s => !s.isEmpty

/-- Models `price || null`: a missing price or the falsy number `0` is
stored as SQL `NULL` (the handler at line 168 runs `price||null`). -/
def jsNumOrNull (p : Option Int) : Option Int :=
  match p with
  | none => none
  | some v => if v = 0 then none else some v

/-- Models `bcrypt.hash(p, 10)`: a one-way salted hash, abstracted as an
injective tagging of the plaintext (the code never inspects the hash other
than through `bcrypt.compare`). -/
def hashPassword (p : String) : String := "bcrypt$" ++ p

/-- Models `bcrypt.compare(p, h)`: true exactly when `h` is a hash of `p`. -/
def comparePassword (p h : String) : Bool := h == hashPassword p

/-- Models a JWT as received by `verifyToken`: either a string that does not
parse as a signed token at all, or a payload `(sub, role)` with an expiry
time, signed with some secret (a tampered token is one signed with a secret
other than the server's). -/
inductive TokenV where
  | malformed
  | signed (sub : String) (role : String) (exp : Nat) (secret : String)
deriving Repr, DecidableEq

/-- Models `jwt.sign({sub,role}, JWT_SECRET, {expiresIn:'12h'})` at time `t`
(seconds): the payload carries `sub` and `role` and expires 12 hours on. -/
def signToken (secret : String) (sub role : String) (t : Nat) : TokenV :=
  .signed sub role (t + 43200) secret

/-- Models `jwt.verify(token, JWT_SECRET)` wrapped in try/catch (function
`verifyToken`, line 106): returns the payload when the signature matches the
server secret and the token has not expired, `null` otherwise. -/
def verifyToken (secret : String) (tok : TokenV) (tnow : Nat) : Option (String × String) :=
  match tok with
  | .malformed => none
  | .signed sub role exp sec => if sec == secret && tnow < exp then some (sub, role) else none

/-- Row of the `users` table. -/
structure User where
  id : String
  email : String
  password : String
  name : Option String
  username : Option String
  role : String
  createdAt : Nat
deriving Repr, DecidableEq

/-- Row of the `stories` table (`tags` is kept as the decoded list rather
than its JSON encoding; the handlers only ever store `JSON.stringify(tags||[])`
and parse it back). -/
structure Story where
  id : String
  authorId : String
  title : String
  excerpt : String
  body : String
  tags : List String
  type : String
  price : Option Int
  likes : Int
  createdAt : Nat
deriving Repr, DecidableEq

/-- Row of the `favorites` table. -/
structure Favorite where
  id : String
  userId : String
  storyId : String
  createdAt : Nat
deriving Repr, DecidableEq

/-- Row of the `messages` table. -/
structure Message where
  id : String
  conversationId : String
  senderId : String
  content : String
  createdAt : Nat
deriving Repr, DecidableEq

/-- The persistent store `data.db`: one list of rows per table the claims
touch (announcements are not needed by any claim's handler). -/
structure DB where
  users : List User
  stories : List Story
  favorites : List Favorite
  messages : List Message
deriving Repr, DecidableEq

/-- The projection `SELECT id,email,name,username,role FROM users` used by
`authMiddleware` (line 114) and by the login handler when building its
response: the password hash column is never selected. -/
structure PublicUser where
  id : String
  email : String
  name : Option String
  username : Option String
  role : String
deriving Repr, DecidableEq

/-- Builds the public projection of a user row. -/
def publicOf (u : User) : PublicUser :=
  { id := u.id, email := u.email, name := u.name, username := u.username, role := u.role }

/-- An HTTP response: a success value or `res.status(code).json({error:msg})`. -/
inductive Resp (α : Type) where
  | ok (v : α)
  | err (status : Nat) (msg : String)
deriving Repr, DecidableEq

/-- Whether a response is an error response. -/
def Resp.isErr {α : Type} : Resp α → Bool
  | .ok _ => false
  | .err _ _ => true

/-- Models `authMiddleware` (lines 108-119): 401 when the Authorization
header is absent, when `verifyToken` returns `null` (malformed, tampered or
expired token), or when no user row has the token's subject id; otherwise
the handler proceeds with `req.user` set to the public projection of the
row. -/
def authMiddleware (s : DB) (secret : String) (tnow : Nat) (auth : Option TokenV) :
    Resp PublicUser :=
  match auth with
  | none => .err 401 "no token"
  | some tok =>
    match verifyToken secret tok tnow with
    | none => .err 401 "invalid token"
    | some (sub, _) =>
      match s.users.find? (fun u => u.id == sub) with
      | none => .err 401 "user not found"
      | some u => .ok (publicOf u)

/-- Models the UNIQUE constraints of the `users` table hit by an INSERT:
`email` is UNIQUE, `username` is UNIQUE (SQL NULLs never conflict). -/
def usersUniqueViolation (s : DB) (email : String) (username : Option String) : Bool :=
  s.users.any (fun u => u.email == email) ||
    (match username with
     | none => false
     | some un => s.users.any (fun u => u.username == some un))

/-- Result of a successful register or login: a token and a user object. -/
structure AuthOut where
  token : TokenV
  user : PublicUser
deriving Repr, DecidableEq

/-- Models `POST /api/auth/register` (lines 124-141).  400 "missing email or
password" when either is falsy; otherwise the INSERT either hits a UNIQUE
constraint (caught and answered 400 "email or username exists") or persists
a row whose `role` column takes the schema default `'user'`; on success the
response carries a fresh token and the user object built at line 133 from
the raw request values. -/
def register (s : DB) (secret : String) (email password : Option String)
    (name username : Option String) (freshId : String) (t : Nat) :
    Resp AuthOut × DB :=
  if !strTruthy email || !strTruthy password then
    (.err 400 "missing email or password", s)
  else if usersUniqueViolation s (jsOr email "") (jsOrNull username) then
    (.err 400 "email or username exists", s)
  else
    (.ok { token := signToken secret freshId "user" t,
           user := { id := freshId, email := jsOr email "", name := name,
                     username := username, role := "user" } },
     { s with users := s.users ++
        [{ id := freshId, email := jsOr email "",
           password := hashPassword (jsOr password ""),
           name := jsOrNull name, username := jsOrNull username,
           role := "user", createdAt := t }] })

/-- Models `POST /api/auth/login` (lines 144-154): 400 "missing" on falsy
input, then a single lookup by email; both "no such user" and "password
check failed" answer the same 401 with body `{error:'invalid'}`. -/
def login (s : DB) (secret : String) (email password : Option String) (t : Nat) :
    Resp AuthOut :=
  if !strTruthy email || !strTruthy password then
    .err 400 "missing"
  else
    match s.users.find? (fun u => u.email == jsOr email "") with
    | none => .err 401 "invalid"
    | some row =>
      if comparePassword (jsOr password "") row.password then
        .ok { token := signToken secret row.id row.role t, user := publicOf row }
      else
        .err 401 "invalid"

/-- Models `POST /api/stories` (lines 162-171, after `authMiddleware`): 400
when title or body is falsy; otherwise a row is inserted with
`excerpt||''`, `JSON.stringify(tags||[])`, `type||'leia'`, `price||null`
and the default like counter 0, and the handler responds with the row it
just stored. -/
def createStory (s : DB) (author : PublicUser) (title excerpt body : Option String)
    (tags : Option (List String)) (ty : Option String) (price : Option Int)
    (freshId : String) (t : Nat) : Resp Story × DB :=
  if !strTruthy title || !strTruthy body then
    (.err 400 "missing title/body", s)
  else
    let row : Story :=
      { id := freshId, authorId := author.id, title := jsOr title "",
        excerpt := jsOr excerpt "", body := jsOr body "",
        tags := tags.getD [], type := jsOr ty "leia",
        price := jsNumOrNull price, likes := 0, createdAt := t }
    (.ok row, { s with stories := s.stories ++ [row] })

/-- Models `DELETE /api/stories/:id` (lines 197-203, after `authMiddleware`):
404 when no row has the id; 403 when the requester is neither the row's
author nor an admin; otherwise `DELETE FROM stories WHERE id = ?`. -/
def deleteStory (s : DB) (reqUser : PublicUser) (id : String) : Resp Unit × DB :=
  match s.stories.find? (fun st => st.id == id) with
  | none => (.err 404 "not found", s)
  | some st =>
    if st.authorId != reqUser.id && reqUser.role != "admin" then
      (.err 403 "not allowed", s)
    else
      (.ok (), { s with stories := s.stories.filter (fun r => r.id != id) })

/-- Models `POST /api/stories/:id/favorite` (lines 206-217, after
`authMiddleware`): if a favorites row for (requester, story) exists it is
deleted by its primary key and the action reported is "removed"; otherwise
a fresh row is inserted and the action reported is "added". -/
def toggleFavorite (s : DB) (userId storyId : String) (freshId : String) (t : Nat) :
    Resp String × DB :=
  match s.favorites.find? (fun f => f.userId == userId && f.storyId == storyId) with
  | some existing =>
    (.ok "removed", { s with favorites := s.favorites.filter (fun f => f.id != existing.id) })
  | none =>
    (.ok "added",
     { s with favorites := s.favorites ++ [⟨freshId, userId, storyId, t⟩] })

/-- The simulated-payment descriptor returned by checkout (line 226). -/
structure CheckoutOut where
  url : String
  amount : Int
  storyId : String
deriving Repr, DecidableEq

/-- Models `POST /api/checkout` (lines 220-228, after `authMiddleware`): 404
when no story has the id; 400 "not for sale" when `!story.price` (SQL NULL
or the falsy number 0); otherwise a synthetic descriptor whose amount is the
story's price.  The handler performs no write, so the store is returned
untouched. -/
def checkout (s : DB) (storyId : String) (freshId : String) : Resp CheckoutOut × DB :=
  match s.stories.find? (fun st => st.id == storyId) with
  | none => (.err 404 "story not found", s)
  | some story =>
    match story.price with
    | none => (.err 400 "not for sale", s)
    | some v =>
      if v = 0 then (.err 400 "not for sale", s)
      else
        (.ok { url := "https://pagamento-simulado.local/checkout/" ++ freshId,
               amount := v, storyId := storyId }, s)

/-- Models `GET /setup-admin` (lines 245-254): when a row with role 'admin'
already exists the route refuses and writes nothing; otherwise it inserts
the one admin row (email `admin@local`, username `admin`) — an INSERT that
still fails on the users table's UNIQUE constraints, in which case the
thrown error leaves the store unchanged. -/
def setupAdmin (s : DB) (freshId : String) (t : Nat) : Resp String × DB :=
  match s.users.find? (fun u => u.role == "admin") with
  | some _ => (.ok "admin exists. delete data.db to recreate or remove this route", s)
  | none =>
    if usersUniqueViolation s "admin@local" (some "admin") then
      (.err 500 "unique constraint", s)
    else
      let row : User :=
        { id := freshId, email := "admin@local", password := hashPassword "admin123",
          name := some "Admin", username := some "admin", role := "admin", createdAt := t }
      (.ok "admin created: admin@local / admin123", { s with users := s.users ++ [row] })

/-- In-memory Socket.IO room membership: the multiset of (socket id, room)
pairs created by `socket.join` — per-process state, never persisted. -/
structure Hub where
  rooms : List (String × String)
deriving Repr, DecidableEq

/-- Models the `join` event handler (lines 271-274): a falsy
`conversationId` is defaulted to 'public' before `socket.join`. -/
def joinRoom (h : Hub) (sock : String) (conversationId : Option String) : Hub :=
  { rooms := h.rooms ++ [(sock, jsOr conversationId "public")] }

/-- The socket ids currently members of a room, the recipient set of
`io.to(room).emit`. -/
def Hub.members (h : Hub) (room : String) : List String :=
  (h.rooms.filter (fun p => p.2 == room)).map (fun p => p.1)

/-- The payload emitted at line 280: unlike the persisted row it carries the
RAW `senderId` from the event (possibly `undefined`), not `senderId||'anon'`. -/
structure BroadcastMsg where
  id : String
  conversationId : String
  senderId : Option String
  content : String
  createdAt : Nat
deriving Repr, DecidableEq

/-- Models the `message` event handler (lines 275-281): a falsy
`conversationId` is defaulted to 'public'; the INSERT into `messages` runs
first (storing `senderId||'anon'`) and only then is the payload emitted to
the room's current members.  The INSERT throws when the fresh id collides
with an existing primary key; the thrown error aborts the handler before
the emit, so on failure nothing is broadcast and the store is unchanged
(result `none`). -/
def socketMessage (s : DB) (h : Hub) (conversationId senderId : Option String)
    (content : String) (freshId : String) (t : Nat) :
    Option (DB × BroadcastMsg × List String) :=
  if s.messages.any (fun m => m.id == freshId) then
    none
  else
    some ({ s with messages := s.messages ++
            [{ id := freshId, conversationId := jsOr conversationId "public",
               senderId := jsOr senderId "anon", content := content, createdAt := t }] },
          { id := freshId, conversationId := jsOr conversationId "public",
            senderId := senderId, content := content, createdAt := t },
          h.members (jsOr conversationId "public"))

/-- Membership of the favorites relation at its composite semantic key:
whether some favorites row pairs this user with this story. -/
def favMem (s : DB) (userId storyId : String) : Bool :=
  s.favorites.any (fun f => f.userId == userId && f.storyId == storyId)

/-- Replaces every stored password hash (used to state that identity
resolution never depends on, nor exposes, the password column). -/
def mapPasswords (g : String → String) (s : DB) : DB :=
  { s with users := s.users.map (fun u => { u with password := g u.password }) }

/-- Empty store: the state right after the schema is created. -/
def emptyDB : DB := { users := [], stories := [], favorites := [], messages := [] }

/-- Empty hub: no socket has joined any room. -/
def hub0 : Hub := { rooms := [] }

/-- A sample registered (non-admin) user row. -/
def sampleUser : User :=
  { id := "u1", email := "b@x", password := hashPassword "right", name := none,
    username := none, role := "user", createdAt := 0 }

/-- A sample seeded admin row. -/
def adminUser : User :=
  { id := "a1", email := "admin@local", password := hashPassword "admin123",
    name := some "Admin", username := some "admin", role := "admin", createdAt := 0 }

/-- A sample story row priced at 5, authored by `sampleUser`. -/
def pricedStory : Story :=
  { id := "s1", authorId := "u1", title := "T", excerpt := "", body := "B",
    tags := [], type := "venda", price := some 5, likes := 0, createdAt := 0 }

/-- The public projection of `sampleUser`, as `req.user` after auth. -/
def authorU1 : PublicUser :=
  { id := "u1", email := "a@x", name := none, username := none, role := "user" }

/-- The story row the create handler persists for a "venda" request priced
at 7 with fresh id `s1` at time 0. -/
def venda7 : Story :=
  { id := "s1", authorId := "u1", title := "T", excerpt := "", body := "B",
    tags := [], type := "venda", price := some 7, likes := 0, createdAt := 0 }

/-- The user row a register of `a@x` with password "p" persists. -/
def regRow : User :=
  { id := "u1", email := "a@x", password := hashPassword "p", name := none,
    username := none, role := "user", createdAt := 0 }

/-- The success payload of that register call. -/
def regOut : AuthOut :=
  { token := .signed "u1" "user" 43200 "sec", user := authorU1 }

/-- The store right after that register call. -/
def regDB : DB := { emptyDB with users := [regRow] }

/-- A store holding only the seeded admin row. -/
def adminDB : DB := { emptyDB with users := [adminUser] }

/-- The user row a register of `a@x` against `adminDB` persists. -/
def regRow9 : User :=
  { id := "u9", email := "a@x", password := hashPassword "p", name := none,
    username := none, role := "user", createdAt := 0 }

/-- A persisted chat message row whose sender was missing (stored "anon"). -/
def anonMsg : Message :=
  { id := "m1", conversationId := "room1", senderId := "anon", content := "hi",
    createdAt := 7 }

/-! Helper lemmas about the JavaScript-truthiness helpers and lists. -/

theorem jsOr_of_falsy (v : Option String) (d : String) (h : strTruthy v = false) :
    jsOr v d = d := by
  cases v with
  | none => rfl
  | some s =>
    simp only [strTruthy, Bool.not_eq_false'] at h
    simp [jsOr, h]

theorem jsOr_of_truthy (v : Option String) (d : String) (h : strTruthy v = true) :
    v = some (jsOr v d) := by
  cases v with
  | none => simp [strTruthy] at h
  | some s =>
    simp only [strTruthy, Bool.not_eq_true'] at h
    simp [jsOr, h]

theorem find?_mapPasswords (g : String → String) (l : List User) (sub : String) :
    ((l.map fun u => { u with password := g u.password }).find? fun u => u.id == sub) =
      ((l.find? fun u => u.id == sub).map fun u => { u with password := g u.password }) := by
  rw [List.find?_map]
  rfl

theorem mem_eq_of_length_le_one {α : Type} {l : List α} (h : l.length ≤ 1)
    {a b : α} (ha : a ∈ l) (hb : b ∈ l) : a = b := by
  cases l with
  | nil => cases ha
  | cons x xs =>
    cases xs with
    | nil =>
      rw [List.mem_singleton] at ha hb
      rw [ha, hb]
    | cons y ys => simp at h

/-! Claim theorems. -/

/-- C5: the login handler answers the very same 401 response with body
`{error:'invalid'}` whether the email matched no user or the email matched
a user whose password check failed, so the caller cannot tell which of the
two checks rejected the attempt. -/
theorem login_uniform_invalid (s : DB) (secret : String) (e₁ p₁ e₂ p₂ : String)
    (t₁ t₂ : Nat) (row : User)
    (he₁ : e₁.isEmpty = false) (hp₁ : p₁.isEmpty = false)
    (he₂ : e₂.isEmpty = false) (hp₂ : p₂.isEmpty = false)
    (hnone : (s.users.find? fun u => u.email == e₁) = none)
    (hrow : (s.users.find? fun u => u.email == e₂) = some row)
    (hbad : comparePassword p₂ row.password = false) :
    login s secret (some e₁) (some p₁) t₁ = .err 401 "invalid" ∧
    login s secret (some e₂) (some p₂) t₂ = .err 401 "invalid" ∧
    login s secret (some e₁) (some p₁) t₁ = login s secret (some e₂) (some p₂) t₂ := by
  have h₁ : login s secret (some e₁) (some p₁) t₁ = .err 401 "invalid" := by
    unfold login
    simp [strTruthy, jsOr, he₁, hp₁, hnone]
  have h₂ : login s secret (some e₂) (some p₂) t₂ = .err 401 "invalid" := by
    unfold login
    simp [strTruthy, jsOr, he₂, hp₂, hrow, hbad]
  exact ⟨h₁, h₂, h₁.trans h₂.symm⟩

/-- Witness for C5 at a concrete store: one user `b@x` with password
"right"; logging in as unknown `a@x` and as `b@x` with password "wrong"
produce the identical 401 "invalid" response. -/
theorem login_uniform_invalid_witness :
    login { emptyDB with users := [sampleUser] } "sec" (some "a@x") (some "p") 0 =
      .err 401 "invalid" ∧
    login { emptyDB with users := [sampleUser] } "sec" (some "b@x") (some "wrong") 0 =
      .err 401 "invalid" ∧
    login { emptyDB with users := [sampleUser] } "sec" (some "a@x") (some "p") 0 =
      login { emptyDB with users := [sampleUser] } "sec" (some "b@x") (some "wrong") 0 :=
  login_uniform_invalid { emptyDB with users := [sampleUser] } "sec" "a@x" "p" "b@x"
    "wrong" 0 0 sampleUser (by decide) (by decide) (by decide) (by decide)
    (by decide) (by decide) (by decide)

/-- C8: checkout answers 404 when no story has the id, answers 400 "not for
sale" when the stored price is NULL, and otherwise returns a descriptor
whose amount is exactly the story's price; in every case the store is left
unchanged.  (The hypothesis `v ≠ 0` in the priced branch reflects that the
create handler normalises a price of 0 to NULL, so no persisted row carries
price 0.) -/
theorem checkout_spec (s : DB) (storyId freshId : String) :
    (checkout s storyId freshId).2 = s ∧
    ((s.stories.find? fun st => st.id == storyId) = none →
      (checkout s storyId freshId).1 = .err 404 "story not found") ∧
    (∀ story, (s.stories.find? fun st => st.id == storyId) = some story →
      (story.price = none → (checkout s storyId freshId).1 = .err 400 "not for sale") ∧
      (∀ v : Int, story.price = some v → v ≠ 0 →
        (checkout s storyId freshId).1 =
          .ok { url := "https://pagamento-simulado.local/checkout/" ++ freshId,
                amount := v, storyId := storyId })) := by
  refine ⟨?_, ?_, ?_⟩
  · unfold checkout
    split
    · rfl
    · split
      · rfl
      · split <;> rfl
  · intro hf
    unfold checkout
    rw [hf]
  · intro story hf
    constructor
    · intro hp
      unfold checkout
      rw [hf]
      dsimp only
      rw [hp]
    · intro v hp hv
      unfold checkout
      rw [hf]
      dsimp only
      rw [hp]
      simp [hv]

/-- Witness for C8: on a store holding the priced story `s1`, checkout
returns the descriptor with amount 5 and the store is unchanged. -/
theorem checkout_spec_witness :
    (checkout { emptyDB with stories := [pricedStory] } "s1" "f").1 =
      .ok { url := "https://pagamento-simulado.local/checkout/f", amount := 5,
            storyId := "s1" } ∧
    (checkout { emptyDB with stories := [pricedStory] } "s1" "f").2 =
      { emptyDB with stories := [pricedStory] } := by
  have h := checkout_spec { emptyDB with stories := [pricedStory] } "s1" "f"
  exact ⟨(h.2.2 pricedStory (by decide)).2 5 (by decide) (by decide), h.1⟩

/-- C7: when the story exists and the requester is neither its author nor
an admin, delete answers 403 and the whole store is untouched; when the
requester is the author or an admin, delete succeeds and removes the rows
with that id from the stories table (and touches nothing else). -/
theorem deleteStory_spec (s : DB) (requester : PublicUser) (id : String) (st : Story)
    (hfind : (s.stories.find? fun r => r.id == id) = some st) :
    ((st.authorId ≠ requester.id ∧ requester.role ≠ "admin") →
      deleteStory s requester id = (.err 403 "not allowed", s)) ∧
    ((st.authorId = requester.id ∨ requester.role = "admin") →
      deleteStory s requester id =
        (.ok (), { s with stories := s.stories.filter fun r => r.id != id }) ∧
      ∀ r ∈ (deleteStory s requester id).2.stories, r.id ≠ id) := by
  constructor
  · rintro ⟨h1, h2⟩
    unfold deleteStory
    rw [hfind]
    simp [h1, h2]
  · intro h
    have hcond : (st.authorId != requester.id && requester.role != "admin") = false := by
      rcases h with h | h <;> simp [h]
    have heq : deleteStory s requester id =
        (.ok (), { s with stories := s.stories.filter fun r => r.id != id }) := by
      unfold deleteStory
      rw [hfind]
      dsimp only
      rw [hcond]
      simp
    refine ⟨heq, ?_⟩
    intro r hr
    rw [heq] at hr
    simp only [List.mem_filter, bne_iff_ne, ne_eq] at hr
    exact hr.2

/-- Witness for C7: user `u2` (not the author `u1`, not an admin) cannot
delete story `s1`; the store is unchanged. -/
theorem deleteStory_spec_witness :
    deleteStory { emptyDB with stories := [pricedStory] }
        { id := "u2", email := "c@x", name := none, username := none, role := "user" }
        "s1" =
      (.err 403 "not allowed", { emptyDB with stories := [pricedStory] }) :=
  (deleteStory_spec { emptyDB with stories := [pricedStory] }
      { id := "u2", email := "c@x", name := none, username := none, role := "user" }
      "s1" pricedStory (by decide)).1 (by decide)

/-- C3: identity resolution answers 401 exactly when the Authorization
header is missing, the token is malformed, tampered (signed with a secret
other than the server's), or expired, or the referenced user row no longer
exists; on success it exposes exactly the public projection (id, email,
name, username, role — never the password column) of an existing user row,
and the outcome is unchanged under any rewriting of every stored password
hash. -/
theorem authMiddleware_spec (s : DB) (secret : String) (tnow : Nat) (auth : Option TokenV) :
    ((∃ msg, authMiddleware s secret tnow auth = .err 401 msg) ↔
      (auth = none ∨
       auth = some .malformed ∨
       (∃ sub role exp sec, auth = some (.signed sub role exp sec) ∧
         (sec ≠ secret ∨ exp ≤ tnow)) ∨
       (∃ sub role exp, auth = some (.signed sub role exp secret) ∧ tnow < exp ∧
         (s.users.find? fun u => u.id == sub) = none))) ∧
    (∀ pu, authMiddleware s secret tnow auth = .ok pu →
      (∃ u, u ∈ s.users ∧ pu = publicOf u) ∧
      ∀ g, authMiddleware (mapPasswords g s) secret tnow auth = .ok pu) := by
  cases auth with
  | none =>
    constructor
    · simp [authMiddleware]
    · intro pu hpu
      simp [authMiddleware] at hpu
  | some tok =>
    cases tok with
    | malformed =>
      constructor
      · simp [authMiddleware, verifyToken]
      · intro pu hpu
        simp [authMiddleware, verifyToken] at hpu
    | signed sub role exp sec =>
      by_cases hsec : sec = secret
      · subst hsec
        by_cases hexp : tnow < exp
        · have hver : verifyToken sec (.signed sub role exp sec) tnow = some (sub, role) := by
            simp [verifyToken, hexp]
          cases hfind : s.users.find? fun u => u.id == sub with
          | none =>
            constructor
            · constructor
              · intro _
                refine Or.inr (Or.inr (Or.inr ⟨sub, role, exp, rfl, hexp, hfind⟩))
              · intro _
                refine ⟨"user not found", ?_⟩
                unfold authMiddleware
                dsimp only
                rw [hver]
                dsimp only
                rw [hfind]
            · intro pu hpu
              unfold authMiddleware at hpu
              dsimp only at hpu
              rw [hver] at hpu
              dsimp only at hpu
              rw [hfind] at hpu
              cases hpu
          | some u =>
            have hok : authMiddleware s sec tnow (some (.signed sub role exp sec)) =
                .ok (publicOf u) := by
              unfold authMiddleware
              dsimp only
              rw [hver]
              dsimp only
              rw [hfind]
            constructor
            · constructor
              · rintro ⟨msg, hmsg⟩
                rw [hok] at hmsg
                cases hmsg
              · rintro (h | h | ⟨a, b, c, d, hd, hbad⟩ | ⟨a, b, c, hc, _, hnone⟩)
                · cases h
                · cases h
                · cases hd
                  rcases hbad with hbad | hbad
                  · exact absurd rfl hbad
                  · omega
                · cases hc
                  rw [hfind] at hnone
                  cases hnone
            · intro pu hpu
              rw [hok] at hpu
              cases hpu
              refine ⟨⟨u, List.mem_of_find?_eq_some hfind, rfl⟩, ?_⟩
              intro g
              unfold authMiddleware
              dsimp only
              rw [hver]
              dsimp only
              unfold mapPasswords
              dsimp only
              rw [find?_mapPasswords, hfind]
              rfl
        · have hver : verifyToken sec (.signed sub role exp sec) tnow = none := by
            simp [verifyToken, hexp]
          constructor
          · constructor
            · intro _
              exact Or.inr (Or.inr (Or.inl ⟨sub, role, exp, sec, rfl, Or.inr (by omega)⟩))
            · intro _
              refine ⟨"invalid token", ?_⟩
              unfold authMiddleware
              dsimp only
              rw [hver]
          · intro pu hpu
            unfold authMiddleware at hpu
            dsimp only at hpu
            rw [hver] at hpu
            cases hpu
      · have hver : verifyToken secret (.signed sub role exp sec) tnow = none := by
          simp [verifyToken, hsec]
        constructor
        · constructor
          · intro _
            exact Or.inr (Or.inr (Or.inl ⟨sub, role, exp, sec, rfl, Or.inl hsec⟩))
          · intro _
            refine ⟨"invalid token", ?_⟩
            unfold authMiddleware
            dsimp only
            rw [hver]
        · intro pu hpu
          unfold authMiddleware at hpu
          dsimp only at hpu
          rw [hver] at hpu
          cases hpu

/-- Witness for C3: a well-signed unexpired token for user `u1` resolves to
the public projection of that row, and still does after every stored
password hash is overwritten. -/
theorem authMiddleware_spec_witness :
    (∃ u, u ∈ ({ emptyDB with users := [sampleUser] } : DB).users ∧
      publicOf sampleUser = publicOf u) ∧
    authMiddleware (mapPasswords (fun _ => "X") { emptyDB with users := [sampleUser] })
        "sec" 0 (some (.signed "u1" "user" 10 "sec")) = .ok (publicOf sampleUser) := by
  have h := (authMiddleware_spec { emptyDB with users := [sampleUser] } "sec" 0
      (some (.signed "u1" "user" 10 "sec"))).2 (publicOf sampleUser) (by decide)
  exact ⟨h.1, h.2 (fun _ => "X")⟩

/-- C1 counterexample: creating a story with type "leia" (not the for-sale
type "venda") and price 5 succeeds and persists price 5, not NULL — the
create handler runs `price||null` with no look at the type. -/
theorem createStory_price_counterexample :
    (createStory emptyDB authorU1 (some "T") none (some "B") none (some "leia")
      (some 5) "s1" 0).2.stories.map Story.price = [some 5] ∧
    ("leia" : String) ≠ "venda" := by
  constructor
  · decide
  · decide

/-- C1 amended: the create handler persists `price||null` irrespective of
the story's type — the stored price equals the request price when that is a
nonzero number, and is NULL exactly when the request price is absent or 0;
no nullification is applied for non-sale types (the price-iff-for-sale
invariant is NOT enforced). -/
theorem createStory_price_stored (s : DB) (author : PublicUser)
    (title excerpt body : Option String) (tags : Option (List String))
    (ty : Option String) (price : Option Int) (freshId : String) (t : Nat)
    (row : Story) (s' : DB)
    (h : createStory s author title excerpt body tags ty price freshId t = (.ok row, s')) :
    row.price = jsNumOrNull price ∧ s'.stories = s.stories ++ [row] := by
  unfold createStory at h
  split at h
  · simp at h
  · simp only [Prod.mk.injEq, Resp.ok.injEq] at h
    obtain ⟨h1, h2⟩ := h
    subst h1
    subst h2
    exact ⟨rfl, rfl⟩

/-- Witness for C1 (amended): a "venda" story created with price 7 is
persisted with price 7 = `jsNumOrNull (some 7)` and appended to the table. -/
theorem createStory_price_stored_witness :
    venda7.price = jsNumOrNull (some 7) ∧
    ({ emptyDB with stories := [venda7] } : DB).stories = emptyDB.stories ++ [venda7] :=
  createStory_price_stored emptyDB authorU1 (some "T") none (some "B") none
    (some "venda") (some 7) "s1" 0 venda7 { emptyDB with stories := [venda7] } rfl

/-- C4: after a successful registration the same email registers again
(with any non-empty password) only to hit the users table's UNIQUE
constraint: the second call answers the ConflictError body "email or
username exists" — a different error from the ValidationError body
"missing email or password" — and persists nothing (the store is exactly
the store after the first call). -/
theorem register_conflict (s : DB) (secret : String) (e p₁ p₂ : String)
    (n₁ un₁ n₂ un₂ : Option String) (f₁ f₂ : String) (t₁ t₂ : Nat)
    (out : AuthOut) (s₁ : DB)
    (he : e.isEmpty = false) (hp₂ : p₂.isEmpty = false)
    (h₁ : register s secret (some e) (some p₁) n₁ un₁ f₁ t₁ = (.ok out, s₁)) :
    register s₁ secret (some e) (some p₂) n₂ un₂ f₂ t₂ =
      (.err 400 "email or username exists", s₁) ∧
    (Resp.err 400 "email or username exists" : Resp AuthOut) ≠
      Resp.err 400 "missing email or password" := by
  have he' : jsOr (some e) "" = e := by simp [jsOr, he]
  have hmem : ∃ u ∈ s₁.users, u.email = e := by
    unfold register at h₁
    split at h₁
    · exact absurd h₁ (by simp)
    · split at h₁
      · exact absurd h₁ (by simp)
      · simp only [Prod.mk.injEq, Resp.ok.injEq] at h₁
        obtain ⟨-, h2⟩ := h₁
        rw [← h2]
        exact ⟨_, List.mem_append_right _ (List.mem_singleton.mpr rfl), he'⟩
  obtain ⟨u, hu, hue⟩ := hmem
  have hviol : usersUniqueViolation s₁ e (jsOrNull un₂) = true := by
    unfold usersUniqueViolation
    have hany : (s₁.users.any fun v => v.email == e) = true :=
      List.any_eq_true.mpr ⟨u, hu, by simp [hue]⟩
    rw [hany]
    simp
  constructor
  · unfold register
    have hc1 : (!strTruthy (some e) || !strTruthy (some p₂)) = false := by
      simp [strTruthy, he, hp₂]
    rw [hc1, he', hviol]
    simp
  · decide

/-- Witness for C4: registering `a@x` on the store already holding the
`a@x` row answers the conflict error and leaves the store unchanged. -/
theorem register_conflict_witness :
    register regDB "sec" (some "a@x") (some "q") none none "u2" 1 =
      (.err 400 "email or username exists", regDB) ∧
    (Resp.err 400 "email or username exists" : Resp AuthOut) ≠
      Resp.err 400 "missing email or password" :=
  register_conflict emptyDB "sec" "a@x" "p" "q" none none none none "u1" "u2" 0 1
    regOut regDB (by decide) (by decide) (by decide)

/-- C9: every user row the register handler adds carries role 'user' (the
schema default — the public registration can never create an admin), and
the one-off seeding route refuses to touch the store when an admin row
already exists. -/
theorem register_role_and_admin_seed (s : DB) (secret : String)
    (email password name username : Option String) (freshId : String) (t : Nat)
    (fa : String) (ta : Nat) :
    (∀ u ∈ (register s secret email password name username freshId t).2.users,
        u ∈ s.users ∨ u.role = "user") ∧
    ((∃ a ∈ s.users, a.role = "admin") → (setupAdmin s fa ta).2 = s) := by
  constructor
  · intro u hu
    unfold register at hu
    split at hu
    · exact Or.inl hu
    · split at hu
      · exact Or.inl hu
      · dsimp only at hu
        rcases List.mem_append.mp hu with h | h
        · exact Or.inl h
        · right
          rw [List.mem_singleton] at h
          rw [h]
  · rintro ⟨a, ha, hrole⟩
    unfold setupAdmin
    cases hf : s.users.find? fun v => v.role == "admin" with
    | none =>
      exfalso
      rw [List.find?_eq_none] at hf
      exact hf a ha (by simp [hrole])
    | some x => rfl

/-- Witness for C9: registering against the store holding only the seeded
admin yields a row that is new and has role 'user', and running the
seeding route on that store changes nothing. -/
theorem register_role_and_admin_seed_witness :
    (regRow9 ∈ adminDB.users ∨ regRow9.role = "user") ∧
    (setupAdmin adminDB "f" 0).2 = adminDB := by
  have h := register_role_and_admin_seed adminDB "sec" (some "a@x") (some "p")
    none none "u9" 0 "f" 0
  exact ⟨h.1 regRow9 (by decide), h.2 ⟨adminUser, by decide, rfl⟩⟩

/-- C10: a join or message event whose conversationId is missing or empty
(falsy) is default-routed to the room named "public": join adds the socket
to "public"'s member set, and a message is persisted under conversationId
"public" and emitted to "public"'s current members rather than rejected. -/
theorem default_room_public (s : DB) (h : Hub) (sock : String)
    (cid sender : Option String) (content freshId : String) (t : Nat)
    (hfalsy : strTruthy cid = false)
    (hnew : (s.messages.any fun m => m.id == freshId) = false) :
    joinRoom h sock cid = { rooms := h.rooms ++ [(sock, "public")] } ∧
    socketMessage s h cid sender content freshId t =
      some ({ s with messages := s.messages ++
                       [{ id := freshId, conversationId := "public",
                          senderId := jsOr sender "anon", content := content,
                          createdAt := t }] },
            { id := freshId, conversationId := "public", senderId := sender,
              content := content, createdAt := t },
            h.members "public") := by
  constructor
  · unfold joinRoom
    rw [jsOr_of_falsy cid "public" hfalsy]
  · unfold socketMessage
    rw [jsOr_of_falsy cid "public" hfalsy, hnew]
    simp

/-- Witness for C10: a message event with no conversationId on the empty
store is persisted under room "public" and broadcast to "public". -/
theorem default_room_public_witness :
    joinRoom hub0 "sock1" none = { rooms := hub0.rooms ++ [("sock1", "public")] } ∧
    socketMessage emptyDB hub0 none (some "alice") "oi" "m1" 3 =
      some ({ emptyDB with messages := emptyDB.messages ++
                             [{ id := "m1", conversationId := "public",
                                senderId := jsOr (some "alice") "anon", content := "oi",
                                createdAt := 3 }] },
            { id := "m1", conversationId := "public", senderId := some "alice",
              content := "oi", createdAt := 3 },
            hub0.members "public") :=
  default_room_public emptyDB hub0 "sock1" none (some "alice") "oi" "m1" 3 rfl rfl

/-- C2 counterexample: a publish with no sender persists the row with
senderId "anon" but broadcasts a payload whose sender is the raw missing
value — the broadcast message is NOT equal to the persisted row in its
sender identity. -/
theorem socketMessage_counterexample :
    socketMessage emptyDB hub0 (some "room1") none "hi" "m1" 7 =
      some ({ emptyDB with messages := [anonMsg] },
            { id := "m1", conversationId := "room1", senderId := none,
              content := "hi", createdAt := 7 },
            []) ∧
    (none : Option String) ≠ some "anon" := by
  constructor
  · decide
  · decide

/-- C2 amended: the message handler persists the row before anything is
emitted; on success the broadcast payload agrees with the persisted row on
id, room, content and timestamp and goes exactly to the room's current
member set, and its sender equals the persisted sender whenever a truthy
sender was supplied — but a missing sender is persisted as "anon" while
the broadcast carries the raw missing value; when the insert fails the
handler aborts: nothing is broadcast and the store is unchanged. -/
theorem socketMessage_spec (s : DB) (h : Hub) (cid sender : Option String)
    (content freshId : String) (t : Nat) :
    ((s.messages.any fun m => m.id == freshId) = true →
      socketMessage s h cid sender content freshId t = none) ∧
    (∀ db bm recips,
      socketMessage s h cid sender content freshId t = some (db, bm, recips) →
      ∃ row, db.messages = s.messages ++ [row] ∧
        row.conversationId = jsOr cid "public" ∧
        row.senderId = jsOr sender "anon" ∧
        bm.id = row.id ∧ bm.conversationId = row.conversationId ∧
        bm.content = row.content ∧ bm.createdAt = row.createdAt ∧
        bm.senderId = sender ∧
        (strTruthy sender = true → bm.senderId = some row.senderId) ∧
        recips = h.members row.conversationId) := by
  constructor
  · intro hdup
    unfold socketMessage
    rw [hdup]
    simp
  · intro db bm recips hsm
    unfold socketMessage at hsm
    split at hsm
    · exact absurd hsm (by simp)
    · simp only [Option.some.injEq, Prod.mk.injEq] at hsm
      obtain ⟨h1, h2, h3⟩ := hsm
      subst h1
      subst h2
      subst h3
      refine ⟨{ id := freshId, conversationId := jsOr cid "public",
                senderId := jsOr sender "anon", content := content,
                createdAt := t }, rfl, rfl, rfl, rfl, rfl, rfl, rfl, rfl, ?_, rfl⟩
      intro hst
      exact jsOr_of_truthy sender "anon" hst

/-- Witness for C2 (amended): publishing the id `m1` again, when a row with
primary key `m1` is already persisted, fails the insert and broadcasts
nothing. -/
theorem socketMessage_spec_witness :
    socketMessage { emptyDB with messages := [anonMsg] } hub0 (some "room1")
      (some "alice") "x" "m1" 9 = none :=
  (socketMessage_spec { emptyDB with messages := [anonMsg] } hub0 (some "room1")
    (some "alice") "x" "m1" 9).1 (by decide)

/-- C6: toggling the favorite on the same (user, story) pair twice returns
the favorites membership relation to its original state at every pair; the
first call reports "added" and the second "removed" when no favorite row
for the pair existed initially, and "removed" then "added" when one did.
(The hypotheses — primary keys of the favorites rows are pairwise distinct,
the first fresh id is unused, and the pair has at most one row — are
invariants of every store the handlers can produce.) -/
theorem toggleFavorite_roundtrip (s : DB) (u i f₁ f₂ : String) (t₁ t₂ : Nat)
    (hids : (s.favorites.map Favorite.id).Nodup)
    (hfresh : ∀ r ∈ s.favorites, r.id ≠ f₁)
    (hpair : (s.favorites.filter (fun r => r.userId == u && r.storyId == i)).length ≤ 1) :
    (∀ u' i',
      favMem (toggleFavorite (toggleFavorite s u i f₁ t₁).2 u i f₂ t₂).2 u' i' =
        favMem s u' i') ∧
    (favMem s u i = false →
      (toggleFavorite s u i f₁ t₁).1 = .ok "added" ∧
      (toggleFavorite (toggleFavorite s u i f₁ t₁).2 u i f₂ t₂).1 = .ok "removed") ∧
    (favMem s u i = true →
      (toggleFavorite s u i f₁ t₁).1 = .ok "removed" ∧
      (toggleFavorite (toggleFavorite s u i f₁ t₁).2 u i f₂ t₂).1 = .ok "added") := by
  cases hf : s.favorites.find? (fun r => r.userId == u && r.storyId == i) with
  | none =>
    have hmem : favMem s u i = false := by
      rw [List.find?_eq_none] at hf
      unfold favMem
      rw [List.any_eq_false]
      exact hf
    have h1 : toggleFavorite s u i f₁ t₁ =
        (.ok "added", { s with favorites := s.favorites ++ [(⟨f₁, u, i, t₁⟩ : Favorite)] }) := by
      unfold toggleFavorite
      rw [hf]
    have hf2 : (s.favorites ++ [(⟨f₁, u, i, t₁⟩ : Favorite)]).find?
        (fun r => r.userId == u && r.storyId == i) = some ⟨f₁, u, i, t₁⟩ := by
      rw [List.find?_append, hf]
      simp
    have h2 : toggleFavorite { s with favorites := s.favorites ++ [(⟨f₁, u, i, t₁⟩ : Favorite)] } u i f₂ t₂ =
        (.ok "removed", { s with favorites := (s.favorites ++ [(⟨f₁, u, i, t₁⟩ : Favorite)]).filter (fun r => r.id != f₁) }) := by
      unfold toggleFavorite
      dsimp only
      rw [hf2]
    have hback : (s.favorites ++ [(⟨f₁, u, i, t₁⟩ : Favorite)]).filter
        (fun r => r.id != f₁) = s.favorites := by
      rw [List.filter_append]
      have hl : s.favorites.filter (fun r => r.id != f₁) = s.favorites :=
        List.filter_eq_self.mpr (fun r hr => by simpa using hfresh r hr)
      have hsing : ([(⟨f₁, u, i, t₁⟩ : Favorite)]).filter
          (fun r => r.id != f₁) = [] := by
        simp
      rw [hl, hsing, List.append_nil]
    refine ⟨?_, ?_, ?_⟩
    · intro u' i'
      rw [h1]
      dsimp only
      rw [h2]
      dsimp only
      unfold favMem
      dsimp only
      rw [hback]
    · intro _
      constructor
      · rw [h1]
      · rw [h1]
        dsimp only
        rw [h2]
    · intro hc
      rw [hmem] at hc
      cases hc
  | some e =>
    have hmemE : e ∈ s.favorites := List.mem_of_find?_eq_some hf
    have hpe0 := List.find?_some hf
    have hpe : (e.userId == u && e.storyId == i) = true := hpe0
    obtain ⟨heu, hei⟩ : e.userId = u ∧ e.storyId = i := by simpa using hpe
    have hmem : favMem s u i = true := by
      unfold favMem
      rw [List.any_eq_true]
      exact ⟨e, hmemE, hpe⟩
    have h1 : toggleFavorite s u i f₁ t₁ =
        (.ok "removed", { s with favorites := s.favorites.filter (fun r => r.id != e.id) }) := by
      unfold toggleFavorite
      rw [hf]
    have hgone : (s.favorites.filter (fun r => r.id != e.id)).find?
        (fun r => r.userId == u && r.storyId == i) = none := by
      rw [List.find?_eq_none]
      intro r hr hp
      rw [List.mem_filter] at hr
      obtain ⟨hrmem, hrid⟩ := hr
      have hre : r = e := mem_eq_of_length_le_one hpair
        (List.mem_filter.mpr ⟨hrmem, hp⟩) (List.mem_filter.mpr ⟨hmemE, hpe⟩)
      rw [hre] at hrid
      simp at hrid
    have h2 : toggleFavorite { s with favorites := s.favorites.filter (fun r => r.id != e.id) } u i f₂ t₂ =
        (.ok "added", { s with favorites := s.favorites.filter (fun r => r.id != e.id) ++ [(⟨f₂, u, i, t₂⟩ : Favorite)] }) := by
      unfold toggleFavorite
      dsimp only
      rw [hgone]
    refine ⟨?_, ?_, ?_⟩
    · intro u' i'
      rw [h1]
      dsimp only
      rw [h2]
      dsimp only
      unfold favMem
      dsimp only
      by_cases hui : u' = u ∧ i' = i
      · obtain ⟨hu', hi'⟩ := hui
        rw [hu', hi']
        have hL : ((s.favorites.filter (fun r => r.id != e.id) ++
            [(⟨f₂, u, i, t₂⟩ : Favorite)]).any
              (fun r => r.userId == u && r.storyId == i)) = true := by
          rw [List.any_append]
          simp
        have hR : (s.favorites.any (fun r => r.userId == u && r.storyId == i)) = true :=
          List.any_eq_true.mpr ⟨e, hmemE, hpe⟩
        rw [hL, hR]
      · have hn2 : (u == u' && i == i') = false := by
          by_cases hu' : u = u'
          · by_cases hi' : i = i'
            · exact absurd ⟨hu'.symm, hi'.symm⟩ hui
            · simp [hi']
          · simp [hu']
        have hfilt : ((s.favorites.filter (fun r => r.id != e.id)).any
            (fun r => r.userId == u' && r.storyId == i')) =
            (s.favorites.any (fun r => r.userId == u' && r.storyId == i')) := by
          cases hA : s.favorites.any (fun r => r.userId == u' && r.storyId == i') with
          | true =>
            rw [List.any_eq_true] at hA
            obtain ⟨r, hrmem, hrp⟩ := hA
            obtain ⟨hr1, hr2⟩ : r.userId = u' ∧ r.storyId = i' := by simpa using hrp
            have hre : r ≠ e := by
              intro hre
              subst hre
              exact hui ⟨hr1.symm.trans heu, hr2.symm.trans hei⟩
            have hrid : r.id ≠ e.id := fun hid =>
              hre (List.inj_on_of_nodup_map hids hrmem hmemE hid)
            exact List.any_eq_true.mpr
              ⟨r, List.mem_filter.mpr ⟨hrmem, by simp [hrid]⟩, hrp⟩
          | false =>
            rw [List.any_eq_false] at hA
            rw [List.any_eq_false]
            intro x hx
            exact hA x (List.mem_filter.mp hx).1
        have hn2' : (((⟨f₂, u, i, t₂⟩ : Favorite)).userId == u' &&
            ((⟨f₂, u, i, t₂⟩ : Favorite)).storyId == i') = false := hn2
        rw [List.any_append]
        simp only [List.any_cons, List.any_nil, Bool.or_false]
        rw [hn2', hfilt]
        simp
    · intro hc
      rw [hmem] at hc
      cases hc
    · intro _
      constructor
      · rw [h1]
      · rw [h1]
        dsimp only
        rw [h2]

/-- Witness for C6 on the empty store: toggling (u, s1) twice adds then
removes, and the membership relation at (u, s1) is back to its initial
(absent) state. -/
theorem toggleFavorite_roundtrip_witness :
    favMem (toggleFavorite (toggleFavorite emptyDB "u" "s1" "fa" 0).2
        "u" "s1" "fb" 1).2 "u" "s1" = favMem emptyDB "u" "s1" ∧
    (toggleFavorite emptyDB "u" "s1" "fa" 0).1 = .ok "added" ∧
    (toggleFavorite (toggleFavorite emptyDB "u" "s1" "fa" 0).2
        "u" "s1" "fb" 1).1 = .ok "removed" := by
  have h := toggleFavorite_roundtrip emptyDB "u" "s1" "fa" "fb" 0 1
    (by simp [emptyDB]) (by simp [emptyDB]) (by simp [emptyDB])
  exact ⟨h.1 "u" "s1", h.2.1 rfl⟩

end Historias
